import Mathlib

/-
Verification of the theckman/semaphore counting-semaphore package.

The implementation stores permits in a buffered Go channel `c` of capacity
`size`:
  * `Acquire` sends into the channel (blocking when the buffer is full); a
    deferred `recover` converts the "send on closed channel" panic into
    `ErrUnusable`.
  * `Release` receives from the channel; a receive from a closed, drained
    channel yields `ok = false`, which is reported as `ErrUnusable`.  There
    is no recover in `Release` (a receive never panics).
  * `Close` closes the channel; a deferred `recover` converts the "close of
    closed channel" panic into `ErrAlreadyClosed`.

The embedding models the channel state as capacity, buffered-element count
and closed flag.  Each operation is an atomic step returning either a
result and the successor state, `blocked` (the caller would suspend), or
`panicked` (an unrecovered runtime panic escapes the call.)
-/

namespace TheckmanSemaphore

/-- The sentinel errors of the package: `ErrUnusable` and `ErrAlreadyClosed`. -/
inductive GoError where
  | unusable
  | alreadyClosed
  deriving DecidableEq, Repr

/-- State of the buffered channel `semaphore.c`: its capacity (fixed by
`make(chan struct\x7b\x7d, size)`), the number of buffered elements (one per
outstanding permit), and whether `close` has been called on it. -/
structure Chan where
  cap : Nat
  buf : Nat
  closed : Bool
  deriving DecidableEq, Repr

/-- Outcome of a primitive Go channel operation: a value plus successor
state, an unrecovered panic, or the calling goroutine blocking. -/
inductive Raw (α : Type) where
  | ok (a : α) (s : Chan)
  | panicked (s : Chan)
  | blocked
  deriving DecidableEq, Repr

/-- Go semantics of `s.c <- struct\x7b\x7d\x7b\x7d`: sending on a closed channel
panics (also when the sender was already blocked and the channel is then
closed); otherwise the send completes when the buffer has room and blocks
when it is full. -/
def sendRaw (s : Chan) : Raw Unit :=
  if s.closed then .panicked s
  else if s.buf < s.cap then .ok () { s with buf := s.buf + 1 }
  else .blocked

/-- Go semantics of `_, ok := <-s.c`: a receive takes a buffered element if
one exists (`ok = true`, even after close), yields `ok = false` on a
closed drained channel, and blocks on an open empty channel. -/
def recvRaw (s : Chan) : Raw Bool :=
  if 0 < s.buf then .ok true { s with buf := s.buf - 1 }
  else if s.closed then .ok false s
  else .blocked

/-- Go semantics of `close(s.c)`: closing a closed channel panics,
otherwise the channel is marked closed. -/
def closeRaw (s : Chan) : Raw Unit :=
  if s.closed then .panicked s
  else .ok () { s with closed := true }

/-- Outcome of one of the three exported methods: a returned error value
(`none` is Go's `nil`) plus successor state, a blocked caller, or an
unrecovered panic escaping to the caller. -/
inductive OpResult where
  | ret (e : Option GoError) (s : Chan)
  | blocked
  | panicked (s : Chan)
  deriving DecidableEq, Repr

/-- `(*semaphore).Acquire`: performs the send; the deferred `recover`
turns a panic into `ErrUnusable` with the state untouched. -/
def Acquire (s : Chan) : OpResult :=
  match sendRaw s with
  | .ok _ t => .ret none t
  | .panicked t => .ret (some .unusable) t
  | .blocked => .blocked

/-- `(*semaphore).Release`: performs the receive; `ok = false` is reported
as `ErrUnusable`.  There is no `recover` here, so a panic in the receive
would escape (the receive never panics). -/
def Release (s : Chan) : OpResult :=
  match recvRaw s with
  | .ok true t => .ret none t
  | .ok false t => .ret (some .unusable) t
  | .panicked t => .panicked t
  | .blocked => .blocked

/-- `(*semaphore).Close`: closes the channel; the deferred `recover` turns
the double-close panic into `ErrAlreadyClosed` with the state untouched. -/
def Close (s : Chan) : OpResult :=
  match closeRaw s with
  | .ok _ t => .ret none t
  | .panicked t => .ret (some .alreadyClosed) t
  | .blocked => .blocked

/-- `New(size int)`: rejects `size < 1` with an error, otherwise allocates
the buffered channel of capacity `size`, initially empty and open. -/
def New (size : Int) : Except String Chan :=
  if size < 1 then .error "size argument must be greater than 0"
  else .ok { cap := size.toNat, buf := 0, closed := false }

/-- The state after an operation: on a return or a panic the successor
state, on a block the state is unchanged (the caller merely waits). -/
def after (s : Chan) (r : OpResult) : Chan :=
  match r with
  | .ret _ t => t
  | .blocked => s
  | .panicked t => t

/-- States reachable from a fresh capacity-`n` semaphore by any sequence
of `Acquire` / `Release` / `Close` steps. -/
inductive Reachable (n : Nat) : Chan → Prop where
  | init : Reachable n { cap := n, buf := 0, closed := false }
  | acq {s} : Reachable n s → Reachable n (after s (Acquire s))
  | rel {s} : Reachable n s → Reachable n (after s (Release s))
  | cls {s} : Reachable n s → Reachable n (after s (Close s))

/-- Iterated `Acquire` demanding immediate success at every step; `none`
if any of the `k` calls blocks or errors. -/
def acquireRep (s : Chan) : Nat → Option Chan
  | 0 => some s
  | k + 1 =>
    match Acquire s with
    | .ret none t => acquireRep t k
    | _ => none

/-- Whether an operation outcome is an unrecovered panic. -/
def isPanicked : OpResult → Bool
  | .panicked _ => true
  | _ => false

/-- C1: if a caller is blocked inside `Acquire` and `Close` then succeeds,
the resumed `Acquire` returns the `Unusable` error — it neither succeeds
nor stays blocked — and the state (hence the available-permit count) is
unchanged by that `Acquire` call. -/
theorem close_unblocks_acquire_with_unusable (s t : Chan)
    (hb : Acquire s = OpResult.blocked)
    (hc : Close s = OpResult.ret none t) :
    Acquire t = OpResult.ret (some GoError.unusable) t := by
  cases hcl : s.closed with
  | true => simp [Close, closeRaw, hcl] at hc
  | false =>
    simp [Close, closeRaw, hcl] at hc
    subst hc
    simp [Acquire, sendRaw]

/-- C1 witness: capacity 1, one permit held, a second Acquire blocked;
Close succeeds and the blocked Acquire returns Unusable on the closed
state, leaving it unchanged. -/
theorem close_unblocks_acquire_with_unusable_witness :
    Acquire ⟨1, 1, false⟩ = OpResult.blocked ∧
    Close ⟨1, 1, false⟩ = OpResult.ret none ⟨1, 1, true⟩ ∧
    Acquire ⟨1, 1, true⟩ = OpResult.ret (some GoError.unusable) ⟨1, 1, true⟩ :=
  ⟨by decide, by decide,
    close_unblocks_acquire_with_unusable ⟨1, 1, false⟩ ⟨1, 1, true⟩
      (by decide) (by decide)⟩

/-- C2: on an already-closed semaphore, `Acquire` returns `Unusable`
immediately (not blocked) and leaves the state unchanged. -/
theorem acquire_on_closed_unusable (s : Chan) (h : s.closed = true) :
    Acquire s = OpResult.ret (some GoError.unusable) s := by
  simp [Acquire, sendRaw, h]

/-- C2 witness: a closed capacity-1 semaphore. -/
theorem acquire_on_closed_unusable_witness :
    Acquire ⟨1, 0, true⟩ = OpResult.ret (some GoError.unusable) ⟨1, 0, true⟩ :=
  acquire_on_closed_unusable ⟨1, 0, true⟩ (by decide)

/-- C3: after `Close`, releasing a permit that is still outstanding (the
channel buffer is nonempty) returns no error: the receive drains one
buffered element even though the channel is closed. -/
theorem release_after_close_succeeds (s : Chan)
    (hc : s.closed = true) (hp : 0 < s.buf) :
    Release s = OpResult.ret none ⟨s.cap, s.buf - 1, s.closed⟩ := by
  simp [Release, recvRaw, hp]

/-- C3 witness: capacity 1, one permit acquired, then closed; Release
returns nil. -/
theorem release_after_close_succeeds_witness :
    Release ⟨1, 1, true⟩ = OpResult.ret none ⟨1, 0, true⟩ :=
  release_after_close_succeeds ⟨1, 1, true⟩ (by decide) (by decide)

/-- C5: the code at the failing input — on an open semaphore with no
outstanding permit, `Release` blocks on the channel receive, contradicting
the claim (and the method's own doc comment) that Release never blocks. -/
theorem release_blocks_open_no_permit :
    Release ⟨1, 0, false⟩ = OpResult.blocked := by decide

/-- C6 counterexample: merely calling `Close` (the slot pool, i.e. the
channel, is never discarded by any operation of this package) already
makes `Release` return `Unusable` once the buffer is drained: after
`New(1)` and a successful `Close`, `Release` returns `Unusable`. -/
theorem release_unusable_after_mere_close :
    New 1 = Except.ok ⟨1, 0, false⟩ ∧
    Close ⟨1, 0, false⟩ = OpResult.ret none ⟨1, 0, true⟩ ∧
    Release ⟨1, 0, true⟩ =
      OpResult.ret (some GoError.unusable) ⟨1, 0, true⟩ := by
  exact ⟨rfl, by decide, by decide⟩

/-- C6 (amended): in every state, `Release` returns an error exactly when
the semaphore is closed and its buffer holds no unreleased permit: any
erroring `Release` has error `Unusable`, an unchanged state, and a closed
drained semaphore (so being closed while a permit is still buffered never
produces an error); and conversely every closed drained state makes
`Release` return `Unusable` with the state unchanged — mere closing plus a
drained buffer is sufficient, with no discard of the pool involved. -/
theorem release_error_iff_closed_drained (s : Chan) :
    (∀ e t, Release s = OpResult.ret (some e) t →
      s.closed = true ∧ s.buf = 0 ∧ e = GoError.unusable ∧ t = s) ∧
    (s.closed = true → s.buf = 0 →
      Release s = OpResult.ret (some GoError.unusable) s) := by
  by_cases hp : 0 < s.buf
  · constructor
    · intro e t h
      simp [Release, recvRaw, hp] at h
    · intro _ hb
      omega
  · cases hcl : s.closed with
    | true =>
      constructor
      · intro e t h
        simp [Release, recvRaw, hp, hcl] at h
        exact ⟨rfl, by omega, h.1.symm, h.2.symm⟩
      · intro _ _
        simp [Release, recvRaw, hp, hcl]
    | false =>
      constructor
      · intro e t h
        simp [Release, recvRaw, hp, hcl] at h
      · intro hc _
        simp at hc

/-- C6 amended witness: the sufficiency direction at the closed drained
state reached by New(1) then Close. -/
theorem release_error_iff_closed_drained_witness :
    Release ⟨1, 0, true⟩ = OpResult.ret (some GoError.unusable) ⟨1, 0, true⟩ :=
  (release_error_iff_closed_drained ⟨1, 0, true⟩).2 rfl rfl

/-- C7: on a freshly constructed semaphore the first `Close` returns no
error and marks the state closed; the second `Close` returns
`AlreadyClosed` and changes nothing, leaving the same terminal closed
state. -/
theorem double_close_advisory (size : Int) (s : Chan)
    (h : New size = Except.ok s) :
    Close s = OpResult.ret none ⟨s.cap, s.buf, true⟩ ∧
    (⟨s.cap, s.buf, true⟩ : Chan).closed = true ∧
    Close ⟨s.cap, s.buf, true⟩ =
      OpResult.ret (some GoError.alreadyClosed) ⟨s.cap, s.buf, true⟩ := by
  by_cases hlt : size < 1
  · simp [New, hlt] at h
  · simp [New, hlt] at h
    subst h
    exact ⟨by simp [Close, closeRaw], rfl, by simp [Close, closeRaw]⟩

/-- C7 witness: a fresh capacity-1 semaphore. -/
theorem double_close_advisory_witness :
    Close ⟨1, 0, false⟩ = OpResult.ret none ⟨1, 0, true⟩ ∧
    (⟨1, 0, true⟩ : Chan).closed = true ∧
    Close ⟨1, 0, true⟩ =
      OpResult.ret (some GoError.alreadyClosed) ⟨1, 0, true⟩ :=
  double_close_advisory 1 ⟨1, 0, false⟩ rfl

/-- C9: in every state — closed or open, double-close and post-close
release included — none of the three methods lets a panic escape: every
outcome is a returned error value or a blocked caller, never an
unrecovered panic. -/
theorem methods_never_panic (s : Chan) :
    isPanicked (Acquire s) = false ∧ isPanicked (Release s) = false ∧
    isPanicked (Close s) = false := by
  obtain ⟨cap, buf, closed⟩ := s
  cases closed <;> by_cases hp : 0 < buf <;> by_cases hl : buf < cap <;>
    simp [Acquire, Release, Close, sendRaw, recvRaw, closeRaw,
      isPanicked, hp, hl]

/-- C10: `Release` returns the `Unusable` error exactly when the
semaphore is closed with no unreleased permit buffered, in which case the
state is unchanged; and every erroring `Release` is of that one shape
(error `Unusable`, closed drained state, unchanged). -/
theorem release_unusable_characterization (s : Chan) :
    (Release s = OpResult.ret (some GoError.unusable) s ↔
      s.closed = true ∧ s.buf = 0) ∧
    (∀ e t, Release s = OpResult.ret (some e) t →
      e = GoError.unusable ∧ t = s ∧ s.closed = true ∧ s.buf = 0) := by
  by_cases hp : 0 < s.buf
  · constructor
    · simp [Release, recvRaw, hp]
      omega
    · intro e t h
      simp [Release, recvRaw, hp] at h
  · cases hcl : s.closed with
    | true =>
      constructor
      · simp [Release, recvRaw, hp, hcl]
        omega
      · intro e t h
        simp [Release, recvRaw, hp, hcl] at h
        exact ⟨h.1.symm, h.2.symm, rfl, by omega⟩
    | false =>
      constructor
      · simp [Release, recvRaw, hp, hcl]
      · intro e t h
        simp [Release, recvRaw, hp, hcl] at h

/-- C10 witness: the closed drained state, on the second conjunct. -/
theorem release_unusable_characterization_witness :
    GoError.unusable = GoError.unusable ∧
    (⟨1, 0, true⟩ : Chan) = ⟨1, 0, true⟩ ∧
    (⟨1, 0, true⟩ : Chan).closed = true ∧ (⟨1, 0, true⟩ : Chan).buf = 0 :=
  (release_unusable_characterization ⟨1, 0, true⟩).2
    GoError.unusable ⟨1, 0, true⟩ (by decide)

/-- C4: in every state reachable from a fresh capacity-`n` semaphore, the
capacity is still `n` and the number of outstanding permits (buffered
elements) stays between 0 and `n`; hence the available count
`n - buf` also stays between 0 and `n`. -/
theorem reachable_permit_bounds (n : Nat) (s : Chan)
    (h : Reachable n s) :
    s.cap = n ∧ s.buf ≤ n ∧ s.cap - s.buf ≤ n := by
  induction h with
  | init => exact ⟨rfl, Nat.zero_le n, by simp⟩
  | @acq s _ ih =>
    obtain ⟨hc, hb, _⟩ := ih
    cases hcl : s.closed <;> by_cases hl : s.buf < s.cap <;>
      simp [after, Acquire, sendRaw, hcl, hl] <;> omega
  | @rel s _ ih =>
    obtain ⟨hc, hb, _⟩ := ih
    cases hcl : s.closed <;> by_cases hp : 0 < s.buf <;>
      simp [after, Release, recvRaw, hcl, hp] <;> omega
  | @cls s _ ih =>
    obtain ⟨hc, hb, _⟩ := ih
    cases hcl : s.closed <;>
      simp [after, Close, closeRaw, hcl] <;> omega

/-- C4 witness: the initial state of a capacity-2 semaphore. -/
theorem reachable_permit_bounds_witness :
    (⟨2, 0, false⟩ : Chan).cap = 2 ∧ (⟨2, 0, false⟩ : Chan).buf ≤ 2 ∧
    (⟨2, 0, false⟩ : Chan).cap - (⟨2, 0, false⟩ : Chan).buf ≤ 2 :=
  reachable_permit_bounds 2 ⟨2, 0, false⟩ Reachable.init

/-- On an open channel with room for `k` more elements, `k` iterated
Acquire calls all succeed immediately, filling the buffer by `k`. -/
lemma acquireRep_fills (k : Nat) : ∀ cap buf : Nat, buf + k ≤ cap →
    acquireRep ⟨cap, buf, false⟩ k = some ⟨cap, buf + k, false⟩ := by
  induction k with
  | zero => intro cap buf _; simp [acquireRep]
  | succ k ih =>
    intro cap buf h
    have hl : buf < cap := by omega
    have step := ih cap (buf + 1) (by omega)
    simp [acquireRep, Acquire, sendRaw, hl, step]
    omega

/-- C8: `New size` succeeds exactly when `1 ≤ size` (otherwise it errors
and yields no semaphore); a successful `New size` yields the open empty
state of capacity `size`, on which `size` consecutive Acquire calls all
succeed immediately, the next Acquire blocks, and after one Release that
Acquire succeeds again. -/
theorem new_capacity_and_admission (size : Int) :
    ((∃ s, New size = Except.ok s) ↔ 1 ≤ size) ∧
    (∀ s, New size = Except.ok s →
      s = ⟨size.toNat, 0, false⟩ ∧
      acquireRep s size.toNat = some ⟨size.toNat, size.toNat, false⟩ ∧
      Acquire ⟨size.toNat, size.toNat, false⟩ = OpResult.blocked ∧
      Release ⟨size.toNat, size.toNat, false⟩ =
        OpResult.ret none ⟨size.toNat, size.toNat - 1, false⟩ ∧
      Acquire ⟨size.toNat, size.toNat - 1, false⟩ =
        OpResult.ret none ⟨size.toNat, size.toNat, false⟩) := by
  by_cases hlt : size < 1
  · constructor
    · constructor
      · rintro ⟨s, hs⟩
        simp [New, hlt] at hs
      · intro h1
        omega
    · intro s hs
      simp [New, hlt] at hs
  · have hpos : 1 ≤ size.toNat := by omega
    constructor
    · constructor
      · intro _
        omega
      · intro _
        exact ⟨⟨size.toNat, 0, false⟩, by simp [New, hlt]⟩
    · intro s hs
      simp [New, hlt] at hs
      subst hs
      refine ⟨rfl, ?_, ?_, ?_, ?_⟩
      · simpa using acquireRep_fills size.toNat size.toNat 0 (by omega)
      · simp [Acquire, sendRaw]
      · have h0 : 0 < size := by omega
        simp [Release, recvRaw, hpos, h0]
      · have hl : size.toNat - 1 < size.toNat := by omega
        simp [Acquire, sendRaw, hl]
        omega

/-- C8 witness: `New 2`. -/
theorem new_capacity_and_admission_witness :
    ((⟨2, 0, false⟩ : Chan) = ⟨2, 0, false⟩ ∧
      acquireRep ⟨2, 0, false⟩ 2 = some ⟨2, 2, false⟩ ∧
      Acquire ⟨2, 2, false⟩ = OpResult.blocked ∧
      Release ⟨2, 2, false⟩ = OpResult.ret none ⟨2, 1, false⟩ ∧
      Acquire ⟨2, 1, false⟩ = OpResult.ret none ⟨2, 2, false⟩) :=
  (new_capacity_and_admission 2).2 ⟨2, 0, false⟩ rfl

end TheckmanSemaphore
